import Mathlib

/-!
Shallow embedding of the tunnel core of the SyntheticAPI backend
(`services/connector`: `tunnel.go`, `service.go`, `service_impl.go`,
`store_impl.go`, the reverse proxy, the HTTP handler and the tester's
string helpers), together with theorems settling the frozen claims.

Go maps are modelled as association lists with the usual map semantics
(insert overwrites, delete removes the key, lookup finds the entry);
Go strings are modelled as Lean strings, except for the byte-oriented
`contains`/`findSubstring` helpers which work on `List Char`.
-/

namespace Syntra

/-! ### Association lists standing in for Go maps -/

def alookup [DecidableEq κ] (k : κ) : List (κ × α) → Option α
  | [] => none
  | p :: rest => if p.1 = k then some p.2 else alookup k rest

def adelete [DecidableEq κ] (k : κ) : List (κ × α) → List (κ × α)
  | [] => []
  | p :: rest => if p.1 = k then adelete k rest else p :: adelete k rest

/-- Go map assignment `m[k] = v`. -/
def ainsert [DecidableEq κ] (k : κ) (v : α) (m : List (κ × α)) : List (κ × α) :=
  (k, v) :: adelete k m

/-- In-place update through a pointer stored in the map: replace the value
at `k` where present, change nothing otherwise. -/
def aupdate [DecidableEq κ] (k : κ) (v : α) : List (κ × α) → List (κ × α)
  | [] => []
  | p :: rest => if p.1 = k then (k, v) :: aupdate k v rest else p :: aupdate k v rest

theorem alookup_adelete_self [DecidableEq κ] (k : κ) (m : List (κ × α)) :
    alookup k (adelete k m) = none := by
  induction m with
  | nil => rfl
  | cons p rest ih =>
      by_cases h : p.1 = k
      · simpa [adelete, h] using ih
      · simp [adelete, alookup, h, ih]

theorem alookup_adelete_ne [DecidableEq κ] {k k' : κ} (h : k ≠ k') (m : List (κ × α)) :
    alookup k (adelete k' m) = alookup k m := by
  induction m with
  | nil => rfl
  | cons p rest ih =>
      by_cases hp : p.1 = k'
      · simp [adelete, alookup, hp, Ne.symm h, ih]
      · by_cases hk : p.1 = k
        · simp [adelete, alookup, hp, hk, h]
        · simp [adelete, alookup, hp, hk, ih]

theorem adelete_eq_self_of_alookup_none [DecidableEq κ] {k : κ} {m : List (κ × α)}
    (h : alookup k m = none) : adelete k m = m := by
  induction m with
  | nil => rfl
  | cons p rest ih =>
      by_cases hp : p.1 = k
      · simp [alookup, hp] at h
      · simp [alookup, hp] at h
        simp [adelete, hp, ih h]

theorem mem_adelete_iff [DecidableEq κ] {k : κ} {p : κ × α} {m : List (κ × α)} :
    p ∈ adelete k m ↔ p ∈ m ∧ p.1 ≠ k := by
  induction m with
  | nil => simp [adelete]
  | cons q rest ih =>
      by_cases hq : q.1 = k
      · constructor
        · intro hm
          rcases (ih.mp (by simpa [adelete, hq] using hm)) with ⟨h1, h2⟩
          exact ⟨List.mem_cons_of_mem _ h1, h2⟩
        · rintro ⟨hm, hne⟩
          rcases List.mem_cons.mp hm with rfl | hm'
          · exact absurd hq hne
          · simpa [adelete, hq] using ih.mpr ⟨hm', hne⟩
      · constructor
        · intro hm
          rcases List.mem_cons.mp (by simpa [adelete, hq] using hm) with rfl | hm'
          · exact ⟨List.mem_cons_self _ _, hq⟩
          · rcases ih.mp hm' with ⟨h1, h2⟩
            exact ⟨List.mem_cons_of_mem _ h1, h2⟩
        · rintro ⟨hm, hne⟩
          rcases List.mem_cons.mp hm with rfl | hm'
          · simp [adelete, hq]
          · simp [adelete, hq]
            exact Or.inr (ih.mpr ⟨hm', hne⟩)

theorem alookup_some_mem [DecidableEq κ] {k : κ} {v : α} {m : List (κ × α)}
    (h : alookup k m = some v) : (k, v) ∈ m := by
  induction m with
  | nil => simp [alookup] at h
  | cons p rest ih =>
      by_cases hp : p.1 = k
      · simp [alookup, hp] at h
        subst h
        simp [← hp]
      · simp [alookup, hp] at h
        exact List.mem_cons_of_mem _ (ih h)

theorem alookup_ainsert_self [DecidableEq κ] (k : κ) (v : α) (m : List (κ × α)) :
    alookup k (ainsert k v m) = some v := by
  simp [ainsert, alookup]

theorem alookup_ainsert_ne [DecidableEq κ] {k k' : κ} (h : k ≠ k') (v : α)
    (m : List (κ × α)) : alookup k (ainsert k' v m) = alookup k m := by
  simp only [ainsert, alookup]
  rw [if_neg (fun hk : k' = k => h hk.symm)]
  exact alookup_adelete_ne h m

theorem adelete_ainsert_self [DecidableEq κ] (k : κ) (v : α) (m : List (κ × α)) :
    adelete k (ainsert k v m) = adelete k m := by
  have : alookup k (adelete k m) = none := alookup_adelete_self k m
  simp [ainsert, adelete, adelete_eq_self_of_alookup_none this]

theorem alookup_aupdate_self [DecidableEq κ] (k : κ) (v : α) (m : List (κ × α)) :
    alookup k (aupdate k v m) = (alookup k m).map (fun _ => v) := by
  induction m with
  | nil => rfl
  | cons p rest ih =>
      by_cases hp : p.1 = k
      · simp [aupdate, alookup, hp]
      · simp [aupdate, alookup, hp, ih]

theorem alookup_aupdate_ne [DecidableEq κ] {k k' : κ} (h : k ≠ k') (v : α)
    (m : List (κ × α)) : alookup k (aupdate k' v m) = alookup k m := by
  induction m with
  | nil => rfl
  | cons p rest ih =>
      by_cases hp : p.1 = k'
      · simp [aupdate, alookup, hp, Ne.symm h, ih]
      · by_cases hk : p.1 = k
        · simp [aupdate, alookup, hp, hk, h]
        · simp [aupdate, alookup, hp, hk, ih]

/-! ### The tester module's substring helpers (`contains`, `findSubstring`) -/

/-- Inner loop of the tester's substring scan: for `i` from `0` to
`len(text) - len(substring)` compare `text[i : i+len(substring)]` with
`substring`. -/
def findSubstring (text substring : List Char) : Bool :=
  (List.range (text.length - substring.length + 1)).any fun i =>
    decide ((text.drop i).take substring.length = substring)

/-- The tester's `contains`: non-empty inputs, then either exact equality or a
strictly-longer text containing the substring. -/
def contains (text substring : List Char) : Bool :=
  decide (0 < text.length) && (decide (0 < substring.length) &&
    (decide (text = substring) ||
      (decide (substring.length < text.length) && findSubstring text substring)))

theorem findSubstring_eq_true_iff (text substring : List Char) :
    findSubstring text substring = true ↔ substring <:+: text := by
  constructor
  · intro h
    rcases List.any_eq_true.mp h with ⟨i, _, hi⟩
    have hi' : (text.drop i).take substring.length = substring := of_decide_eq_true hi
    refine ⟨text.take i, (text.drop i).drop substring.length, ?_⟩
    calc text.take i ++ substring ++ (text.drop i).drop substring.length
        = text.take i ++ ((text.drop i).take substring.length ++
            (text.drop i).drop substring.length) := by rw [hi', List.append_assoc]
      _ = text.take i ++ text.drop i := by rw [List.take_append_drop]
      _ = text := List.take_append_drop i text
  · rintro ⟨pre, post, hsplit⟩
    apply List.any_eq_true.mpr
    refine ⟨pre.length, ?_, ?_⟩
    · apply List.mem_range.mpr
      have hlen := congrArg List.length hsplit
      simp only [List.length_append] at hlen
      omega
    · apply decide_eq_true
      have hdrop : text.drop pre.length = substring ++ post := by
        rw [← hsplit, List.append_assoc, List.drop_left]
      rw [hdrop, List.take_left]

/-! ### Tunnel data model (`tunnel.go`, reverse proxy, store) -/

inductive TunnelMessageType
  | handshake | request | response | heartbeat | errorMsg | disconnect
deriving DecidableEq, Repr

/-- JSON payload values that flow through `TunnelMessage.Data`
(`map[string]interface{}`); the protocol only stores strings and numbers
there, and the numbers (`status_code`, `timestamp`) are integer-valued. -/
inductive JValue
  | str (s : String)
  | num (n : Int)
deriving DecidableEq, Repr

/-- Model of `TunnelMessage` from `tunnel.go:16-21`. -/
structure TunnelMessage where
  id : String
  type : TunnelMessageType
  data : List (String × JValue)
  headers : List (String × String)
deriving DecidableEq, Repr

/-- A rendezvous slot (`chan TunnelMessage` with capacity 1): either still
empty or holding the delivered response frame. -/
inductive SlotState
  | empty
  | delivered (msg : TunnelMessage)
deriving DecidableEq, Repr

/-- Model of `TunnelConnection` from `tunnel.go:36-48`.  The WebSocket handle and the
`context.Context` are replaced by a `cancelled` flag; `pendingReqs` is the
association list `pending`. -/
structure TunnelConn where
  id : String
  userID : String
  subdomain : String
  localPort : Int
  lastPing : Nat
  createdAt : Nat
  pending : List (String × SlotState)
  cancelled : Bool
deriving DecidableEq, Repr

/-- Model of `TunnelManager`'s two indices (`tunnel.go:51-56`). The Go maps hold
pointers to the same `TunnelConnection`; here the record value itself is
stored under both keys and kept aligned by `aupdate`. -/
structure Manager where
  connections : List (String × TunnelConn)
  subdomains : List (String × TunnelConn)
deriving DecidableEq, Repr

def mgrEmpty : Manager := { connections := [], subdomains := [] }

/-- Model of `registerConnection` (`tunnel.go:121-146`): insert the connection under
its id and under its subdomain.  The store write (`tm.store.CreateTunnel`,
lines 129-145) touches only the persistence layer modelled separately below
and is omitted here; no claim depends on it. -/
def registerConnection (tm : Manager) (conn : TunnelConn) : Manager :=
  { connections := ainsert conn.id conn tm.connections
    subdomains := ainsert conn.subdomain conn tm.subdomains }

/-- Model of `unregisterConnection` (`tunnel.go:148-163`): if the id is present,
cancel the connection's context and delete both index entries.  The
cancelled connection object is returned so its final state (in particular
its untouched `pending` table) can be observed; the store status update
(line 159) is omitted as above. -/
def unregisterConnection (tm : Manager) (connID : String) :
    Manager × Option TunnelConn :=
  match alookup connID tm.connections with
  | some conn =>
      ({ connections := adelete connID tm.connections
         subdomains := adelete conn.subdomain tm.subdomains },
       some { conn with cancelled := true })
  | none => (tm, none)

/-- Staleness test of `cleanupRoutine` (`tunnel.go:344`):
`time.Since(conn.LastPing) > 2*time.Minute`, with time in seconds. -/
def staleConn (now : Nat) (conn : TunnelConn) : Bool :=
  decide (120 < now - conn.lastPing)

/-- One pass of `cleanupRoutine` (`tunnel.go:336-353`): every stale
connection is cancelled and removed from both indices; nothing else is
touched (in particular no pending slot is completed). -/
def cleanupSweep (tm : Manager) (now : Nat) : Manager :=
  { connections := tm.connections.filter (fun p => ¬ staleConn now p.2)
    subdomains :=
      (tm.connections.filter (fun p => staleConn now p.2)).foldl
        (fun m p => adelete p.2.subdomain m) tm.subdomains }

/-! ### Response reconstruction and the reverse proxy -/

/-- Model of `http.Response` as the tunnel code uses it: status, header, optional
body stream.  `buildHTTPResponse` never assigns `resp.Body`, so the field
stays `none` there. -/
structure HTTPResponse where
  statusCode : Int
  header : List (String × String)
  body : Option String
deriving DecidableEq, Repr

/-- Model of `buildHTTPResponse` (`tunnel.go:304-322`): status defaults to 200 and is
overridden by a numeric `status_code` payload field; headers are copied via
`Header.Set`; the `body` payload field is never read and `resp.Body` is
never assigned. -/
def buildHTTPResponse (msg : TunnelMessage) : HTTPResponse :=
  let resp : HTTPResponse := { statusCode := 200, header := [], body := none }
  let resp :=
    match alookup ("status_code") msg.data with
    | some (JValue.num statusCode) => { resp with statusCode := statusCode }
    | _ => resp
  { resp with
    header := msg.headers.foldl (fun h kv => ainsert kv.1 kv.2 h) resp.header }

/-- What the public client sees: the Fiber response (status, headers, body).
Error paths carry the error message as the body; the JSON envelope the
handlers wrap around it is immaterial to the claims. -/
structure FiberResponse where
  status : Int
  headers : List (String × String)
  body : String
deriving DecidableEq, Repr

/-- Model of `httpResponseToFiber` (reverse proxy, lines 118-143): copy status and
headers, add the `X-Tunnel-Response-Time` header, and send the body only
when `resp.Body` is non-nil — otherwise the client body stays empty. -/
def httpResponseToFiber (resp : HTTPResponse) (responseTimeMs : Nat) :
    FiberResponse :=
  let hdrs := resp.header.foldl (fun acc kv => ainsert kv.1 kv.2 acc) []
  let hdrs := ainsert ("X-Tunnel-Response-Time")
    (toString responseTimeMs ++ "ms") hdrs
  { status := resp.statusCode
    headers := hdrs
    body := match resp.body with
            | some b => b
            | none => "" }

/-- Events of the dispatcher send path, in source order, used to state the
insert-before-write discipline. -/
inductive FwdEvent
  | slotInserted (reqId : String)
  | frameWritten (reqId : String) (ok : Bool)
  | responseDelivered (reqId : String)
  | slotRemoved (reqId : String)
deriving DecidableEq, Repr

/-- Outcomes of `ForwardRequest`. -/
inductive FwdResult
  | noTunnel (subdomain : String)
  | writeFailed
  | timeout
  | ok (resp : HTTPResponse)
deriving DecidableEq, Repr

/-- The per-connection part of `ForwardRequest` (`tunnel.go:277-301`),
after the registry lookup.  External nondeterminism is passed in:
`writeOk` is whether `WriteJSON` succeeds, `agentReply` is the response
frame delivered for this correlation id within the 30 s deadline (if any).
Line by line: 278-281 insert the slot into `pending`; 284 writes the frame;
285-288 on write error delete the slot and fail; 292-294 a delivered
response wins and the read loop (`handleResponse`, lines 193-205) deletes
the entry; 295-299 on deadline delete the slot and fail with
"tunnel request timeout".  Besides the result and the final pending table,
the ordered event trace of the call is returned. -/
def forwardRequestCore (pending : List (String × SlotState)) (reqId : String)
    (writeOk : Bool) (agentReply : Option TunnelMessage) :
    FwdResult × List (String × SlotState) × List FwdEvent :=
  let pending1 := ainsert reqId SlotState.empty pending
  let ev := [FwdEvent.slotInserted reqId, FwdEvent.frameWritten reqId writeOk]
  if writeOk = false then
    (FwdResult.writeFailed, adelete reqId pending1,
      ev ++ [FwdEvent.slotRemoved reqId])
  else
    match agentReply with
    | some msg =>
        (FwdResult.ok (buildHTTPResponse msg), adelete reqId pending1,
          ev ++ [FwdEvent.responseDelivered reqId, FwdEvent.slotRemoved reqId])
    | none =>
        (FwdResult.timeout, adelete reqId pending1,
          ev ++ [FwdEvent.slotRemoved reqId])

/-- Model of `ForwardRequest` (`tunnel.go:240-301`): look the session up by
subdomain (`tunnel.go:241-247`), run the send/await path on its pending
table and write the mutated session back through both index pointers. -/
def forwardRequest (tm : Manager) (subdomain reqId : String)
    (writeOk : Bool) (agentReply : Option TunnelMessage) :
    FwdResult × Manager :=
  match alookup subdomain tm.subdomains with
  | none => (FwdResult.noTunnel subdomain, tm)
  | some conn =>
      let (res, pending', _) := forwardRequestCore conn.pending reqId writeOk agentReply
      let conn' := { conn with pending := pending' }
      (res,
        { connections := aupdate conn.id conn' tm.connections
          subdomains := aupdate conn.subdomain conn' tm.subdomains })

/-! ### Subdomain extraction and the public edge (`ReverseProxy`) -/

/-- Index of the last colon, as `strings.LastIndex(host, ":")`. -/
def lastIndexColon : List Char → Option Nat
  | [] => none
  | c :: rest =>
      match lastIndexColon rest with
      | some i => some (i + 1)
      | none => if c = ':' then some 0 else none

/-- The port-stripping step of `extractSubdomain` (lines 73-76): cut the
host at the last colon when one is present. -/
def stripPort (host : List Char) : List Char :=
  match lastIndexColon host with
  | some i => host.take i
  | none => host

/-- Model of `strings.HasSuffix(s, suffix)`. -/
def hasSuffix (s suffix : List Char) : Bool :=
  decide (suffix.length ≤ s.length) &&
    decide (s.drop (s.length - suffix.length) = suffix)

/-- Model of `strings.TrimSuffix(s, suffix)`. -/
def trimSuffix (s suffix : List Char) : List Char :=
  if hasSuffix s suffix then s.take (s.length - suffix.length) else s

/-- Model of `extractSubdomain` (reverse proxy, lines 72-91) on character lists:
strip the port, require the `"." + baseDomain` suffix, trim it, and reject
an empty remainder or a remainder equal to the base domain. -/
def extractSubdomainL (baseDomain host : List Char) : List Char :=
  let host1 := stripPort host
  let suffix := '.' :: baseDomain
  if ¬ hasSuffix host1 suffix then []
  else
    let subdomain := trimSuffix host1 suffix
    if subdomain = [] ∨ subdomain = baseDomain then [] else subdomain

/-- Model of `extractSubdomain` on Lean strings (Go strings). -/
def extractSubdomain (baseDomain host : String) : String :=
  String.mk (extractSubdomainL baseDomain.toList host.toList)

/-- Model of `ProxyHandler` (reverse proxy, lines 29-69): extract the subdomain from
the `Host` header (400 when empty), forward through the tunnel (502 on any
`ForwardRequest` error) and otherwise copy the reconstructed response back.
The `fiberToHTTPRequest` conversion step cannot fail in this model. -/
def proxyHandler (tm : Manager) (baseDomain host reqId : String)
    (writeOk : Bool) (agentReply : Option TunnelMessage)
    (responseTimeMs : Nat) : FiberResponse × Manager :=
  let subdomain := extractSubdomain baseDomain host
  if subdomain = "" then
    ({ status := 400, headers := [], body := "Invalid subdomain" }, tm)
  else
    match forwardRequest tm subdomain reqId writeOk agentReply with
    | (FwdResult.ok resp, tm') => (httpResponseToFiber resp responseTimeMs, tm')
    | (_, tm') =>
        ({ status := 502, headers := [], body := "Tunnel unavailable" }, tm')

/-! ### Store, service and HTTP handler (`store_impl.go`, `service_impl.go`,
`service.go`, the connector route handler) -/

inductive TunnelStatus
  | active | inactive | connecting | error | terminated
deriving DecidableEq, Repr

/-- Model of `Analytics` (tunnel model file, lines 215-222), durations in
milliseconds and timestamps in seconds. -/
structure Analytics where
  requestCount : Int
  responseTimes : List Nat
  statusCodes : List (Int × Int)
  endpoints : List (String × Int)
  lastRequest : Nat
  bytesTransferred : Int
deriving DecidableEq, Repr

/-- Model of `Tunnel` (tunnel model file, lines 202-212). -/
structure Tunnel where
  id : String
  userID : String
  localPort : Int
  publicURL : String
  status : TunnelStatus
  createdAt : Nat
  lastActivity : Nat
  expiresAt : Nat
  analytics : Option Analytics
deriving DecidableEq, Repr

/-- Model of `MemoryStore.tunnels`. -/
abbrev MemoryStore := List (String × Tunnel)

/-- Model of `MemoryStore.CreateTunnel` (`store_impl.go:10-20`). -/
def storeCreateTunnel (ms : MemoryStore) (tunnel : Tunnel) :
    Except String MemoryStore :=
  match alookup tunnel.id ms with
  | some _ =>
      let i := tunnel.id
      Except.error (s!"tunnel with ID {i} already exists")
  | none => Except.ok (ainsert tunnel.id tunnel ms)

/-- Model of `MemoryStore.GetTunnel` (`store_impl.go:23-33`). -/
def storeGetTunnel (ms : MemoryStore) (tunnelID : String) :
    Except String Tunnel :=
  match alookup tunnelID ms with
  | some tunnel => Except.ok tunnel
  | none =>
      let i := tunnelID
      Except.error (s!"tunnel with ID {i} not found")

/-- Model of `MemoryStore.GetTunnelsByUserID` (`store_impl.go:36-48`): collect the
stored tunnels whose user matches and whose status is `active`. -/
def GetTunnelsByUserID (ms : MemoryStore) (userID : String) : List Tunnel :=
  (ms.map Prod.snd).filter fun t =>
    decide (t.userID = userID) && decide (t.status = TunnelStatus.active)

/-- Model of `MemoryStore.UpdateTunnelStatus` (`store_impl.go:51-63`). -/
def storeUpdateTunnelStatus (ms : MemoryStore) (tunnelID : String)
    (status : TunnelStatus) (now : Nat) : Except String MemoryStore :=
  match alookup tunnelID ms with
  | some tunnel =>
      Except.ok (aupdate tunnelID
        { tunnel with status := status, lastActivity := now } ms)
  | none =>
      let i := tunnelID
      Except.error (s!"tunnel with ID {i} not found")

/-- Model of `TunnelConfig` (`service.go:33-38`), expiration in seconds. -/
structure TunnelConfig where
  maxTunnelsPerUser : Int
  tunnelExpiration : Nat
  allowedPorts : List Int
  baseURL : String
deriving DecidableEq, Repr

/-- Model of `GenerateTunnelConfig` (tunnel proxy file, lines 222-229). -/
def GenerateTunnelConfig (baseURL : String) : TunnelConfig :=
  { maxTunnelsPerUser := 5
    tunnelExpiration := 24 * 60 * 60
    allowedPorts := [3000, 3001, 4000, 5000, 8000, 8080, 8081, 9000]
    baseURL := baseURL }

/-- Restricted system ports of `ValidatePort` (tunnel proxy file,
line 196). -/
def restrictedPorts : List Int :=
  [22, 23, 25, 53, 80, 110, 143, 443, 993, 995]

/-- Model of `ValidatePort` (tunnel proxy file, lines 190-204). -/
def ValidatePort (port : Int) : Except String Unit :=
  if port < 1 ∨ port > 65535 then
    Except.error ("port must be between 1 and 65535")
  else if port ∈ restrictedPorts then
    Except.error (s!"port {port} is restricted")
  else Except.ok ()

/-- Model of `ServiceImpl.isPortAllowed` (`service_impl.go:178-189`). -/
def isPortAllowed (config : TunnelConfig) (port : Int) : Bool :=
  decide (config.allowedPorts = []) || decide (port ∈ config.allowedPorts)

/-- Message of the per-user cap error (`service_impl.go:48`). -/
def maxTunnelsMsg (m : Int) : String :=
  s!"maximum number of tunnels ({m}) exceeded for user"

/-- Model of `ServiceImpl.CreateTunnel` (`service_impl.go:35-79`): reject a
disallowed port, reject a user at or over the cap (counting
`GetTunnelsByUserID`, i.e. active tunnels only), then insert a fresh
record in status `connecting`.  The generated UUID `newId`, the random
public-URL subdomain and the clock are passed in; the asynchronous
`establishTunnel` transition to `active` is a separate
`storeUpdateTunnelStatus` step. -/
def serviceCreateTunnel (config : TunnelConfig) (ms : MemoryStore)
    (userID : String) (localPort : Int) (newId randomSub : String)
    (now : Nat) : Except String Tunnel × MemoryStore :=
  if ¬ isPortAllowed config localPort then
    let p := localPort
    (Except.error (s!"port {p} is not allowed"), ms)
  else
    let existingTunnels := GetTunnelsByUserID ms userID
    if (config.maxTunnelsPerUser : Int) ≤ (existingTunnels.length : Int) then
      (Except.error (maxTunnelsMsg config.maxTunnelsPerUser), ms)
    else
      let b := config.baseURL
      let tunnel : Tunnel :=
        { id := newId
          userID := userID
          localPort := localPort
          publicURL := s!"{b}/{randomSub}/{newId}"
          status := TunnelStatus.connecting
          createdAt := now
          lastActivity := now
          expiresAt := now + config.tunnelExpiration
          analytics := some
            { requestCount := 0, responseTimes := [], statusCodes := []
              endpoints := [], lastRequest := 0, bytesTransferred := 0 } }
      match storeCreateTunnel ms tunnel with
      | Except.error e =>
          (Except.error ("failed to create tunnel: " ++ e), ms)
      | Except.ok ms' => (Except.ok tunnel, ms')

/-- Model of `Handler.CreateTunnel` (connector route handler, lines 44-74): 400 when
`ValidatePort` rejects, 500 when the service call fails (its error string
in `details`), 201 on success.  The result is (status code, details). -/
def handlerCreateTunnel (config : TunnelConfig) (ms : MemoryStore)
    (userID : String) (localPort : Int) (newId randomSub : String)
    (now : Nat) : (Int × String) × MemoryStore :=
  match ValidatePort localPort with
  | Except.error e => ((400, e), ms)
  | Except.ok _ =>
      match serviceCreateTunnel config ms userID localPort newId randomSub now with
      | (Except.error e, ms') => ((500, e), ms')
      | (Except.ok _, ms') => ((201, "Tunnel created successfully"), ms')

/-! ### Claims -/

/-- Claim C9 counterexample: the claim says `contains s s` returns `false`
for every non-empty `s`, but on the code `contains ['a'] ['a']` evaluates
to `true` via the `text == substring` clause. -/
theorem contains_equal_strings_cex :
    (['a'] : List Char) ≠ [] ∧ ¬ (contains ['a'] ['a'] = false) := by decide

/-- Claim C9 (amended): the `contains` substring check ACCEPTS equal
non-empty strings (`contains s s = true` via the equality clause), and for
a text strictly longer than a non-empty substring it returns `true` exactly
when the substring occurs in the text (case-sensitive). -/
theorem contains_characterization (s t sub : List Char) (hs : s ≠ [])
    (hsub : sub ≠ []) (hlen : sub.length < t.length) :
    contains s s = true ∧ (contains t sub = true ↔ sub <:+: t) := by
  constructor
  · have h0 : 0 < s.length := List.length_pos.mpr hs
    simp [contains, h0]
  · have h0t : 0 < t.length := by omega
    have h0s : 0 < sub.length := List.length_pos.mpr hsub
    have hne : t ≠ sub := by
      intro h
      rw [h] at hlen
      omega
    simp [contains, h0t, h0s, hne, hlen, findSubstring_eq_true_iff]

theorem contains_characterization_witness :
    contains ['a'] ['a'] = true ∧
      (contains ['a', 'b'] ['b'] = true ↔ ['b'] <:+: ['a', 'b']) :=
  contains_characterization ['a'] ['a', 'b'] ['b'] (by decide) (by decide)
    (by decide)

/-- Claim C1 (code bug, documented in the spec's own open-questions list):
for the echo agent's response frame carrying status 200 and body "hello",
the reconstructed client response has the frame's status and headers but an
EMPTY body — `buildHTTPResponse` never reads the `body` payload field, so
the body the public client receives is not the body it sent. -/
theorem echo_body_dropped :
    (let msg : TunnelMessage :=
      { id := "r1"
        type := TunnelMessageType.response
        data := [("status_code", JValue.num 200), ("body", JValue.str ("hello"))]
        headers := [("Content-Type", "text/plain")] }
     let client := httpResponseToFiber (buildHTTPResponse msg) 5
     client.status = 200 ∧
       alookup ("Content-Type") client.headers = some ("text/plain") ∧
       client.body = "" ∧ client.body ≠ "hello") := by decide

/-- Claim C2: the dispatcher send path inserts the rendezvous slot into the
pending table under the fresh correlation id strictly before the frame
write (the first two events of every call, and the slot is present in the
table the write sees); if the write fails the slot is removed again, the
call returns the write error, and the pending table is exactly as before
the call. -/
theorem forward_insert_before_write (pending : List (String × SlotState))
    (reqId : String) (writeOk : Bool) (agentReply : Option TunnelMessage)
    (hfresh : alookup reqId pending = none) :
    ((forwardRequestCore pending reqId writeOk agentReply).2.2.take 2 =
        [FwdEvent.slotInserted reqId, FwdEvent.frameWritten reqId writeOk]) ∧
    alookup reqId (ainsert reqId SlotState.empty pending) =
      some SlotState.empty ∧
    (writeOk = false →
      (forwardRequestCore pending reqId writeOk agentReply).1 =
        FwdResult.writeFailed ∧
      (forwardRequestCore pending reqId writeOk agentReply).2.1 = pending) := by
  have hrestore : adelete reqId (ainsert reqId SlotState.empty pending) = pending := by
    rw [adelete_ainsert_self, adelete_eq_self_of_alookup_none hfresh]
  refine ⟨?_, alookup_ainsert_self _ _ _, ?_⟩
  · unfold forwardRequestCore
    rcases writeOk with _ | _
    · simp
    · rcases agentReply with _ | msg <;> simp
  · intro hw
    subst hw
    unfold forwardRequestCore
    simp [hrestore]

theorem forward_insert_before_write_witness :
    ((forwardRequestCore [] ("r1") false none).2.2.take 2 =
        [FwdEvent.slotInserted ("r1"), FwdEvent.frameWritten ("r1") false]) ∧
    alookup ("r1") (ainsert ("r1") SlotState.empty []) =
      some SlotState.empty ∧
    (false = false →
      (forwardRequestCore [] ("r1") false none).1 = FwdResult.writeFailed ∧
      (forwardRequestCore [] ("r1") false none).2.1 = []) :=
  forward_insert_before_write [] ("r1") false none (by decide)

/-- A session with one outstanding rendezvous slot, used for claim C3. -/
def pendingConnCex : TunnelConn :=
  { id := "t1", userID := "alice", subdomain := "alice-abcd1234"
    localPort := 3000, lastPing := 0, createdAt := 0
    pending := [("r1", SlotState.empty)], cancelled := false }

/-- Claim C3 counterexample: tearing down a session with an outstanding
slot leaves the slot uncompleted and the pending table non-empty — nothing
in `unregisterConnection` drains `pending` or produces a `TunnelClosed`
completion, contradicting the claim that teardown empties the table. -/
theorem teardown_leaves_pending_cex :
    (unregisterConnection (registerConnection mgrEmpty pendingConnCex)
        ("t1")).2 = some { pendingConnCex with cancelled := true } ∧
    ({ pendingConnCex with cancelled := true }).pending =
      [("r1", SlotState.empty)] ∧
    ([("r1", SlotState.empty)] : List (String × SlotState)) ≠ [] := by decide

/-- Claim C3 (amended): session teardown (explicit unregistration) removes
the connection from both registry indices and cancels its context, but
leaves the session's pending table exactly as it was — no outstanding slot
is completed with any error; waiting callers are instead released by their
own 30-second deadlines.  The stale-connection sweep likewise removes
connections without touching any pending table. -/
theorem teardown_no_drain (tm : Manager) (connID : String) (conn : TunnelConn)
    (hfound : alookup connID tm.connections = some conn) :
    (unregisterConnection tm connID).2 =
      some { conn with cancelled := true } ∧
    ({ conn with cancelled := true }).pending = conn.pending ∧
    alookup connID (unregisterConnection tm connID).1.connections = none ∧
    alookup conn.subdomain (unregisterConnection tm connID).1.subdomains =
      none ∧
    (∀ now p, p ∈ (cleanupSweep tm now).connections → p ∈ tm.connections) := by
  have hun : unregisterConnection tm connID =
      ({ connections := adelete connID tm.connections
         subdomains := adelete conn.subdomain tm.subdomains },
       some { conn with cancelled := true }) := by
    unfold unregisterConnection
    rw [hfound]
  rw [hun]
  refine ⟨rfl, rfl, alookup_adelete_self _ _, alookup_adelete_self _ _, ?_⟩
  intro now p hp
  exact (List.mem_filter.mp hp).1

theorem teardown_no_drain_witness :
    (unregisterConnection (registerConnection mgrEmpty pendingConnCex)
        ("t1")).2 = some { pendingConnCex with cancelled := true } ∧
    ({ pendingConnCex with cancelled := true }).pending =
      pendingConnCex.pending ∧
    alookup ("t1") (unregisterConnection
        (registerConnection mgrEmpty pendingConnCex) ("t1")).1.connections =
      none ∧
    alookup pendingConnCex.subdomain (unregisterConnection
        (registerConnection mgrEmpty pendingConnCex) ("t1")).1.subdomains =
      none ∧
    (∀ now p,
      p ∈ (cleanupSweep (registerConnection mgrEmpty pendingConnCex)
            now).connections →
      p ∈ (registerConnection mgrEmpty pendingConnCex).connections) :=
  teardown_no_drain (registerConnection mgrEmpty pendingConnCex) ("t1")
    pendingConnCex (by decide)

/-- A registered session whose agent never answers, used for claim C5. -/
def timeoutConn : TunnelConn :=
  { id := "t2", userID := "alice", subdomain := "alice-x"
    localPort := 3000, lastPing := 0, createdAt := 0
    pending := [], cancelled := false }

def timeoutMgr : Manager := registerConnection mgrEmpty timeoutConn

/-- Claim C5 counterexample: the agent never responds, and the public call
is answered with 502 — `ProxyHandler` maps every `ForwardRequest` failure,
the 30-second timeout included, to `fiber.StatusBadGateway`; the claimed
504 never occurs. -/
theorem timeout_returns_502_cex :
    (proxyHandler timeoutMgr ("syntra.dev") ("alice-x.syntra.dev") ("r9")
        true none 0).1.status = 502 ∧ ((502 : Int) ≠ 504) := by decide

/-- Claim C5 (amended): if the agent never responds, the forward fails with
the 30-second timeout and the public call returns 502 (not 504: the edge
maps every tunnel error to Bad Gateway); the pending slot for the fresh
correlation id is removed, restoring the pending table, and the tunnel
remains registered under both its id and its subdomain. -/
theorem timeout_slot_removed_tunnel_alive (tm : Manager)
    (base host s reqId : String) (conn : TunnelConn) (rt : Nat)
    (hsub : alookup s tm.subdomains = some conn)
    (hid : alookup conn.id tm.connections = some conn)
    (hs : s = conn.subdomain)
    (hfresh : alookup reqId conn.pending = none)
    (hhost : extractSubdomain base host = s)
    (hsne : s ≠ "") :
    (forwardRequest tm s reqId true none).1 = FwdResult.timeout ∧
    (forwardRequestCore conn.pending reqId true none).2.1 = conn.pending ∧
    alookup s (forwardRequest tm s reqId true none).2.subdomains =
      some conn ∧
    alookup conn.id (forwardRequest tm s reqId true none).2.connections =
      some conn ∧
    (proxyHandler tm base host reqId true none rt).1.status = 502 := by
  have hpend : adelete reqId (ainsert reqId SlotState.empty conn.pending) =
      conn.pending := by
    rw [adelete_ainsert_self, adelete_eq_self_of_alookup_none hfresh]
  have hcore : forwardRequestCore conn.pending reqId true none =
      (FwdResult.timeout, conn.pending,
        [FwdEvent.slotInserted reqId, FwdEvent.frameWritten reqId true,
          FwdEvent.slotRemoved reqId]) := by
    unfold forwardRequestCore
    simp [hpend]
  have hfwd : forwardRequest tm s reqId true none =
      (FwdResult.timeout,
        { connections := aupdate conn.id conn tm.connections
          subdomains := aupdate conn.subdomain conn tm.subdomains }) := by
    simp only [forwardRequest, hsub, hcore]
  refine ⟨by rw [hfwd], by rw [hcore], ?_, ?_, ?_⟩
  · rw [hfwd, hs]
    simp [alookup_aupdate_self, ← hs, hsub]
  · rw [hfwd]
    simp [alookup_aupdate_self, hid]
  · unfold proxyHandler
    rw [hhost, if_neg hsne, hfwd]

theorem timeout_slot_removed_tunnel_alive_witness :
    (forwardRequest timeoutMgr ("alice-x") ("r9") true none).1 =
      FwdResult.timeout ∧
    (forwardRequestCore timeoutConn.pending ("r9") true none).2.1 =
      timeoutConn.pending ∧
    alookup ("alice-x")
        (forwardRequest timeoutMgr ("alice-x") ("r9") true none).2.subdomains =
      some timeoutConn ∧
    alookup timeoutConn.id
        (forwardRequest timeoutMgr ("alice-x") ("r9") true none).2.connections =
      some timeoutConn ∧
    (proxyHandler timeoutMgr ("syntra.dev") ("alice-x.syntra.dev") ("r9")
        true none 7).1.status = 502 :=
  timeout_slot_removed_tunnel_alive timeoutMgr ("syntra.dev")
    ("alice-x.syntra.dev") ("alice-x") ("r9") timeoutConn 7 (by decide)
    (by decide) (by decide) (by decide) (by decide) (by decide)

/-- Configuration for the per-user cap scenario: defaults with
`max_tunnels_per_user = 2`. -/
def capConfig : TunnelConfig :=
  { GenerateTunnelConfig ("https://api.syntra.dev") with maxTunnelsPerUser := 2 }

def capStep1 := handlerCreateTunnel capConfig [] ("alice") 3000 ("id1") ("sub1") 0

def capStep2 := handlerCreateTunnel capConfig capStep1.2 ("alice") 3000 ("id2") ("sub2") 1

/-- The store after the first two tunnels have completed their asynchronous
`establishTunnel` transition to `active`. -/
def capStoreActive : MemoryStore :=
  match storeUpdateTunnelStatus capStep2.2 ("id1") TunnelStatus.active 2 with
  | Except.ok ms =>
      match storeUpdateTunnelStatus ms ("id2") TunnelStatus.active 3 with
      | Except.ok ms' => ms'
      | Except.error _ => []
  | Except.error _ => []

def capStep3 := handlerCreateTunnel capConfig capStoreActive ("alice") 3000 ("id3") ("sub3") 4

/-- Claim C4 counterexample: with `max_tunnels_per_user = 2`, even in the
claim's most favorable reading (the first two tunnels already activated
before the third call), the third create is answered with HTTP 500 carrying
the cap message — the handler maps every service failure to
`fiber.StatusInternalServerError`, so no 4xx response ever carries
"maximum number of tunnels ... exceeded". -/
theorem user_cap_status_cex :
    capStep1.1.1 = 201 ∧ capStep2.1.1 = 201 ∧ capStep3.1.1 = 500 ∧
    ¬ (400 ≤ capStep3.1.1 ∧ capStep3.1.1 < 500) ∧
    capStep3.1.2 = maxTunnelsMsg 2 := by decide

/-- Claim C4 (amended): the per-user cap counts only tunnels with status
`active` (fresh creations are `connecting`, so back-to-back creates are not
limited until activation).  Whenever the port is allowed and the user
already has at least `max_tunnels_per_user` active tunnels, the service
fails with "maximum number of tunnels (N) exceeded for user" and the HTTP
handler answers 500 with that message in the details — not 4xx; with the
count below the cap (and a valid, allowed port and fresh id) the handler
answers 201. -/
theorem user_cap_amended :
    (∀ (config : TunnelConfig) (ms : MemoryStore) (u : String) (p : Int)
        (i s : String) (n : Nat),
        isPortAllowed config p = true →
        (config.maxTunnelsPerUser : Int) ≤
          ((GetTunnelsByUserID ms u).length : Int) →
        (serviceCreateTunnel config ms u p i s n).1 =
          Except.error (maxTunnelsMsg config.maxTunnelsPerUser)) ∧
    (∀ (config : TunnelConfig) (ms : MemoryStore) (u : String) (p : Int)
        (i s : String) (n : Nat),
        ValidatePort p = Except.ok () →
        isPortAllowed config p = true →
        (config.maxTunnelsPerUser : Int) ≤
          ((GetTunnelsByUserID ms u).length : Int) →
        (handlerCreateTunnel config ms u p i s n).1 =
          (500, maxTunnelsMsg config.maxTunnelsPerUser)) ∧
    (∀ (config : TunnelConfig) (ms : MemoryStore) (u : String) (p : Int)
        (i s : String) (n : Nat),
        ValidatePort p = Except.ok () →
        isPortAllowed config p = true →
        ((GetTunnelsByUserID ms u).length : Int) < config.maxTunnelsPerUser →
        alookup i ms = none →
        (handlerCreateTunnel config ms u p i s n).1.1 = 201) := by
  refine ⟨?_, ?_, ?_⟩
  · intro config ms u p i s n hallow hcap
    simp [serviceCreateTunnel, hallow, hcap]
  · intro config ms u p i s n hvp hallow hcap
    simp [handlerCreateTunnel, hvp, serviceCreateTunnel, hallow, hcap]
  · intro config ms u p i s n hvp hallow hlt hfresh
    have hnocap : ¬ ((config.maxTunnelsPerUser : Int) ≤
        ((GetTunnelsByUserID ms u).length : Int)) := not_le.mpr hlt
    simp [handlerCreateTunnel, hvp, serviceCreateTunnel, hallow, hnocap,
      storeCreateTunnel, hfresh]

/-- All-ports-allowed configuration with a zero cap, used to witness the
cap branch of the amended claim C4. -/
def capZeroConfig : TunnelConfig :=
  { maxTunnelsPerUser := 0, tunnelExpiration := 0, allowedPorts := []
    baseURL := "" }

theorem user_cap_amended_witness :
    (serviceCreateTunnel capZeroConfig [] ("u") 3000 ("i") ("s") 0).1 =
      Except.error (maxTunnelsMsg 0) ∧
    (handlerCreateTunnel capZeroConfig [] ("u") 3000 ("i") ("s") 0).1 =
      (500, maxTunnelsMsg 0) ∧
    (handlerCreateTunnel capConfig [] ("u") 3000 ("i") ("s") 0).1.1 = 201 :=
  ⟨user_cap_amended.1 capZeroConfig [] ("u") 3000 ("i") ("s") 0 (by decide)
      (by decide),
   user_cap_amended.2.1 capZeroConfig [] ("u") 3000 ("i") ("s") 0 (by rfl)
      (by decide) (by decide),
   user_cap_amended.2.2 capConfig [] ("u") 3000 ("i") ("s") 0 (by rfl)
      (by decide) (by decide) (by decide)⟩

/-- Consistency of the registry's two indices: every id-index entry is
stored under its record's id and its record is found under its subdomain in
the subdomain index, and symmetrically.  In particular a live connection is
in the id index iff it is in the subdomain index, both entries holding the
same record. -/
def regConsistent (tm : Manager) : Prop :=
  (∀ p ∈ tm.connections,
      p.1 = p.2.id ∧ alookup p.2.subdomain tm.subdomains = some p.2) ∧
  (∀ q ∈ tm.subdomains,
      q.1 = q.2.subdomain ∧ alookup q.2.id tm.connections = some q.2)

/-- Registry states reachable by `registerConnection` /
`unregisterConnection` when every registration's id and subdomain are fresh
for the live registry (the intended behavior of the UUID and random
subdomain generators). -/
inductive ReachableFresh : Manager → Prop
  | init : ReachableFresh mgrEmpty
  | register {tm : Manager} {c : TunnelConn} :
      ReachableFresh tm →
      alookup c.id tm.connections = none →
      alookup c.subdomain tm.subdomains = none →
      ReachableFresh (registerConnection tm c)
  | unregister {tm : Manager} (connID : String) :
      ReachableFresh tm →
      ReachableFresh (unregisterConnection tm connID).1

theorem regConsistent_register {tm : Manager} {c : TunnelConn}
    (hc : regConsistent tm)
    (hid : alookup c.id tm.connections = none)
    (hsub : alookup c.subdomain tm.subdomains = none) :
    regConsistent (registerConnection tm c) := by
  obtain ⟨h1, h2⟩ := hc
  have hconns : (registerConnection tm c).connections =
      (c.id, c) :: tm.connections := by
    simp [registerConnection, ainsert, adelete_eq_self_of_alookup_none hid]
  have hsubs : (registerConnection tm c).subdomains =
      (c.subdomain, c) :: tm.subdomains := by
    simp [registerConnection, ainsert, adelete_eq_self_of_alookup_none hsub]
  constructor
  · intro p hp
    rw [hconns] at hp
    rw [hsubs]
    rcases List.mem_cons.mp hp with rfl | hp'
    · exact ⟨rfl, by simp [alookup]⟩
    · obtain ⟨hk, hl⟩ := h1 p hp'
      refine ⟨hk, ?_⟩
      have hne : p.2.subdomain ≠ c.subdomain := by
        intro he
        rw [he] at hl
        rw [hl] at hsub
        exact Option.noConfusion hsub
      simp [alookup, Ne.symm hne, hl]
  · intro q hq
    rw [hsubs] at hq
    rw [hconns]
    rcases List.mem_cons.mp hq with rfl | hq'
    · exact ⟨rfl, by simp [alookup]⟩
    · obtain ⟨hk, hl⟩ := h2 q hq'
      refine ⟨hk, ?_⟩
      have hne : q.2.id ≠ c.id := by
        intro he
        rw [he] at hl
        rw [hl] at hid
        exact Option.noConfusion hid
      simp [alookup, Ne.symm hne, hl]

theorem regConsistent_unregister {tm : Manager} (connID : String)
    (hc : regConsistent tm) :
    regConsistent (unregisterConnection tm connID).1 := by
  obtain ⟨h1, h2⟩ := hc
  rcases hfind : alookup connID tm.connections with _ | conn
  · simpa [unregisterConnection, hfind] using ⟨h1, h2⟩
  · have hconn := h1 (connID, conn) (alookup_some_mem hfind)
    have hcid : connID = conn.id := hconn.1
    have hcsub : alookup conn.subdomain tm.subdomains = some conn := hconn.2
    have hres : (unregisterConnection tm connID).1 =
        { connections := adelete connID tm.connections
          subdomains := adelete conn.subdomain tm.subdomains } := by
      simp [unregisterConnection, hfind]
    rw [hres]
    constructor
    · intro p hp
      obtain ⟨hpm, hpk⟩ := mem_adelete_iff.mp hp
      obtain ⟨hk, hl⟩ := h1 p hpm
      refine ⟨hk, ?_⟩
      have hne : p.2.subdomain ≠ conn.subdomain := by
        intro he
        rw [he] at hl
        rw [hl] at hcsub
        have : p.2 = conn := Option.some.inj hcsub
        apply hpk
        rw [hk, this, ← hcid]
      rw [alookup_adelete_ne hne]
      exact hl
    · intro q hq
      obtain ⟨hqm, hqk⟩ := mem_adelete_iff.mp hq
      obtain ⟨hk, hl⟩ := h2 q hqm
      refine ⟨hk, ?_⟩
      have hne : q.2.id ≠ connID := by
        intro he
        rw [he] at hl
        rw [hl] at hfind
        have : q.2 = conn := Option.some.inj hfind
        apply hqk
        rw [hk, this]
      rw [alookup_adelete_ne hne]
      exact hl

theorem regConsistent_of_reachableFresh {tm : Manager}
    (h : ReachableFresh tm) : regConsistent tm := by
  induction h with
  | init =>
      exact ⟨fun p hp => absurd hp (List.not_mem_nil p),
        fun q hq => absurd hq (List.not_mem_nil q)⟩
  | register _ hid hsub ih => exact regConsistent_register ih hid hsub
  | unregister connID _ ih => exact regConsistent_unregister connID ih

/-- Two connections with distinct ids and the same (randomly colliding)
subdomain, used for claim C6. -/
def collA : TunnelConn :=
  { id := "i1", userID := "u", subdomain := "s", localPort := 3000
    lastPing := 0, createdAt := 0, pending := [], cancelled := false }

def collB : TunnelConn := { collA with id := "i2" }

/-- Claim C6 counterexample: `registerConnection` performs no duplicate
check, so registering two connections with distinct ids and the same
subdomain — a state reachable since the random 8-hex-character subdomain
suffix can collide — leaves the first connection in the id index while the
subdomain index entry for its subdomain holds the other record: the
both-point-at-the-same-record invariant fails. -/
theorem registry_collision_cex :
    (alookup ("i1")
        (registerConnection (registerConnection mgrEmpty collA) collB).connections
      = some collA) ∧
    (alookup (collA.subdomain)
        (registerConnection (registerConnection mgrEmpty collA) collB).subdomains
      = some collB) ∧
    collA ≠ collB := by decide

/-- Claim C6 (amended): after registering a connection both lookups return
that record, after unregistering a registered connection both lookups fail,
and — provided every registration's id and subdomain are fresh among the
live entries, as the UUID/random generators intend — every reachable
registry state keeps the id index and the subdomain index consistent, each
live connection present in both, under the same record. -/
theorem registry_two_indices (tm : Manager) (c : TunnelConn)
    (connID : String) (c' : TunnelConn) (tmr : Manager)
    (hfound : alookup connID tm.connections = some c')
    (hreach : ReachableFresh tmr) :
    (alookup c.id (registerConnection tm c).connections = some c ∧
     alookup c.subdomain (registerConnection tm c).subdomains = some c) ∧
    (alookup connID (unregisterConnection tm connID).1.connections = none ∧
     alookup c'.subdomain (unregisterConnection tm connID).1.subdomains =
       none) ∧
    regConsistent tmr := by
  refine ⟨⟨alookup_ainsert_self _ _ _, alookup_ainsert_self _ _ _⟩, ⟨?_, ?_⟩,
    regConsistent_of_reachableFresh hreach⟩
  · have hres : (unregisterConnection tm connID).1 =
        { connections := adelete connID tm.connections
          subdomains := adelete c'.subdomain tm.subdomains } := by
      simp [unregisterConnection, hfound]
    rw [hres]
    exact alookup_adelete_self _ _
  · have hres : (unregisterConnection tm connID).1 =
        { connections := adelete connID tm.connections
          subdomains := adelete c'.subdomain tm.subdomains } := by
      simp [unregisterConnection, hfound]
    rw [hres]
    exact alookup_adelete_self _ _

theorem registry_two_indices_witness :
    (alookup collB.id
        (registerConnection (registerConnection mgrEmpty collA) collB).connections
      = some collB ∧
     alookup collB.subdomain
        (registerConnection (registerConnection mgrEmpty collA) collB).subdomains
      = some collB) ∧
    (alookup ("i1")
        (unregisterConnection (registerConnection mgrEmpty collA)
          ("i1")).1.connections = none ∧
     alookup collA.subdomain
        (unregisterConnection (registerConnection mgrEmpty collA)
          ("i1")).1.subdomains = none) ∧
    regConsistent mgrEmpty :=
  registry_two_indices (registerConnection mgrEmpty collA) collB ("i1") collA
    mgrEmpty (by decide) ReachableFresh.init

theorem hasSuffix_eq_true_iff (s suf : List Char) :
    hasSuffix s suf = true ↔ suf <:+ s := by
  unfold hasSuffix
  rw [Bool.and_eq_true, decide_eq_true_eq, decide_eq_true_eq]
  constructor
  · rintro ⟨hle, heq⟩
    rw [← heq]
    exact List.drop_suffix _ _
  · rintro ⟨pre, hpre⟩
    have hlen := congrArg List.length hpre
    simp only [List.length_append] at hlen
    refine ⟨by omega, ?_⟩
    have hp : s.length - suf.length = pre.length := by omega
    rw [hp, ← hpre, List.drop_left]

/-- Claim C7 counterexample: for `host = "b.b"` and base domain `"b"`, the
stripped host ends with `"." + base` and the remainder `"b"` is non-empty,
so the claim requires the extractor to return it; the code instead returns
the empty result because of the additional `subdomain == baseDomain`
rejection. -/
theorem extract_base_base_cex :
    hasSuffix (stripPort (("b.b").toList)) ('.' :: ("b").toList) = true ∧
    trimSuffix (stripPort (("b.b").toList)) ('.' :: ("b").toList) =
      ("b").toList ∧
    ("b").toList ≠ ([] : List Char) ∧
    extractSubdomainL (("b").toList) (("b.b").toList) = [] := by decide

/-- Claim C7 (amended): after stripping an optional trailing `:port`, the
extractor returns the remaining prefix before `"." + baseDomain` exactly
when that suffix is present, the prefix is non-empty AND the prefix differs
from the base domain; in every other case (including the bare base domain)
it returns the empty result, which the public edge answers with 400. -/
theorem extract_subdomain_characterization (base host : List Char)
    (tm : Manager) (baseS hostS reqId : String) (writeOk : Bool)
    (reply : Option TunnelMessage) (rt : Nat)
    (hempty : extractSubdomain baseS hostS = "") :
    (extractSubdomainL base host =
      if ('.' :: base) <:+ stripPort host ∧
          trimSuffix (stripPort host) ('.' :: base) ≠ [] ∧
          trimSuffix (stripPort host) ('.' :: base) ≠ base
        then trimSuffix (stripPort host) ('.' :: base) else []) ∧
    (proxyHandler tm baseS hostS reqId writeOk reply rt).1.status = 400 := by
  constructor
  · simp only [extractSubdomainL]
    by_cases hsuf : hasSuffix (stripPort host) ('.' :: base) = true
    · have hsuf' : ('.' :: base) <:+ stripPort host :=
        (hasSuffix_eq_true_iff _ _).mp hsuf
      by_cases hdis : trimSuffix (stripPort host) ('.' :: base) = [] ∨
          trimSuffix (stripPort host) ('.' :: base) = base
      · rw [if_neg (by simp [hsuf]), if_pos hdis, if_neg (by tauto)]
      · rw [if_neg (by simp [hsuf]), if_neg hdis, if_pos (by tauto)]
    · have hsuf' : ¬ (('.' :: base) <:+ stripPort host) := fun hc =>
        hsuf ((hasSuffix_eq_true_iff _ _).mpr hc)
      rw [if_pos (by simp [hsuf]), if_neg (by tauto)]
  · simp [proxyHandler, hempty]

theorem extract_subdomain_characterization_witness :
    (extractSubdomainL (("b").toList) (("b.b").toList) =
      if ('.' :: ("b").toList) <:+ stripPort (("b.b").toList) ∧
          trimSuffix (stripPort (("b.b").toList)) ('.' :: ("b").toList) ≠ [] ∧
          trimSuffix (stripPort (("b.b").toList)) ('.' :: ("b").toList) ≠
            ("b").toList
        then trimSuffix (stripPort (("b.b").toList)) ('.' :: ("b").toList)
        else []) ∧
    (proxyHandler mgrEmpty ("b") ("x") ("r1") true none 0).1.status = 400 :=
  extract_subdomain_characterization (("b").toList) (("b.b").toList)
    mgrEmpty ("b") ("x") ("r1") true none 0 (by decide)

/-- Claim C8: `ValidatePort` fails exactly when the port is outside
`[1, 65535]` or in the restricted set; concretely `local_port = 22` is
answered 400 citing the restriction, `70000` is answered 400, and `3000`
passes validation and (with the default configuration and a fresh store)
yields 201. -/
theorem validate_port_spec :
    (∀ port : Int, ValidatePort port ≠ Except.ok () ↔
        (port < 1 ∨ 65535 < port ∨
          port ∈ ([22, 23, 25, 53, 80, 110, 143, 443, 993, 995] : List Int))) ∧
    (handlerCreateTunnel (GenerateTunnelConfig ("https://api.syntra.dev")) []
        ("alice") 22 ("id1") ("sub1") 0).1 = (400, "port 22 is restricted") ∧
    (handlerCreateTunnel (GenerateTunnelConfig ("https://api.syntra.dev")) []
        ("alice") 70000 ("id1") ("sub1") 0).1 =
      (400, "port must be between 1 and 65535") ∧
    (handlerCreateTunnel (GenerateTunnelConfig ("https://api.syntra.dev")) []
        ("alice") 3000 ("id1") ("sub1") 0).1.1 = 201 := by
  refine ⟨?_, by decide, by decide, by decide⟩
  intro port
  show ValidatePort port ≠ Except.ok () ↔
    (port < 1 ∨ 65535 < port ∨ port ∈ restrictedPorts)
  by_cases h1 : port < 1 ∨ port > 65535
  · simp only [ValidatePort, if_pos h1]
    constructor
    · intro _
      rcases h1 with h1 | h1
      · exact Or.inl h1
      · exact Or.inr (Or.inl h1)
    · intro _ hc
      exact Except.noConfusion hc
  · by_cases h2 : port ∈ restrictedPorts
    · simp only [ValidatePort, if_neg h1, if_pos h2]
      constructor
      · intro _
        exact Or.inr (Or.inr h2)
      · intro _ hc
        exact Except.noConfusion hc
    · simp only [ValidatePort, if_neg h1, if_neg h2]
      constructor
      · intro h
        exact (h rfl).elim
      · intro h
        rcases h with h | h | h
        · exact absurd (Or.inl h) h1
        · exact absurd (Or.inr h) h1
        · exact absurd h h2

theorem serviceCreateTunnel_fst_congr (config : TunnelConfig)
    (ms ms' : MemoryStore) (u : String) (p : Int) (i s : String) (n : Nat)
    (hG : GetTunnelsByUserID ms' u = GetTunnelsByUserID ms u)
    (hL : alookup i ms' = alookup i ms) :
    (serviceCreateTunnel config ms' u p i s n).1 =
      (serviceCreateTunnel config ms u p i s n).1 := by
  unfold serviceCreateTunnel
  rw [hG]
  by_cases hpa : ¬ isPortAllowed config p = true
  · simp [hpa]
  · rw [if_neg hpa, if_neg hpa]
    by_cases hcap : (config.maxTunnelsPerUser : Int) ≤
        (((GetTunnelsByUserID ms u).length : Int))
    · rw [if_pos hcap, if_pos hcap]
    · rw [if_neg hcap, if_neg hcap]
      simp only [storeCreateTunnel]
      rw [hL]
      cases halookup : alookup i ms <;> rfl

/-- Claim C10: the per-user listing returns exactly the user's tunnels in
status `active` — `connecting`, `terminated` and `error` tunnels are never
included — and consequently a non-active tunnel added to the store changes
neither the listing nor the outcome of a tunnel creation (it does not count
toward the per-user cap). -/
theorem active_only_listing :
    (∀ (ms : MemoryStore) (u : String) (t : Tunnel),
        t ∈ GetTunnelsByUserID ms u ↔
          (t ∈ ms.map Prod.snd ∧ t.userID = u ∧
            t.status = TunnelStatus.active)) ∧
    (∀ (ms : MemoryStore) (u : String) (t : Tunnel),
        t ∈ GetTunnelsByUserID ms u →
          t.status ≠ TunnelStatus.connecting ∧
          t.status ≠ TunnelStatus.terminated ∧
          t.status ≠ TunnelStatus.error) ∧
    (∀ (config : TunnelConfig) (ms : MemoryStore) (u : String) (p : Int)
        (i s extraId : String) (n : Nat) (extra : Tunnel),
        extra.status ≠ TunnelStatus.active →
        alookup extraId ms = none →
        extraId ≠ i →
        GetTunnelsByUserID (ainsert extraId extra ms) u =
          GetTunnelsByUserID ms u ∧
        (serviceCreateTunnel config (ainsert extraId extra ms) u p i s n).1 =
          (serviceCreateTunnel config ms u p i s n).1) := by
  have hmem : ∀ (ms : MemoryStore) (u : String) (t : Tunnel),
      t ∈ GetTunnelsByUserID ms u ↔
        (t ∈ ms.map Prod.snd ∧ t.userID = u ∧
          t.status = TunnelStatus.active) := by
    intro ms u t
    simp [GetTunnelsByUserID, List.mem_filter, and_assoc]
  refine ⟨hmem, ?_, ?_⟩
  · intro ms u t ht
    have hst := ((hmem ms u t).mp ht).2.2
    rw [hst]
    exact ⟨fun hc => TunnelStatus.noConfusion hc,
      fun hc => TunnelStatus.noConfusion hc,
      fun hc => TunnelStatus.noConfusion hc⟩
  · intro config ms u p i s extraId n extra hstat hfreshE hne
    have hdel : adelete extraId ms = ms :=
      adelete_eq_self_of_alookup_none hfreshE
    have hlist : GetTunnelsByUserID (ainsert extraId extra ms) u =
        GetTunnelsByUserID ms u := by
      simp [GetTunnelsByUserID, ainsert, hdel, hstat]
    refine ⟨hlist, ?_⟩
    exact serviceCreateTunnel_fst_congr config ms _ u p i s n hlist
      (alookup_ainsert_ne (Ne.symm hne) _ _)

/-- A connecting tunnel record, used to witness claim C10. -/
def connectingTunnelW : Tunnel :=
  { id := "w1", userID := "u", localPort := 3000, publicURL := ""
    status := TunnelStatus.connecting, createdAt := 0, lastActivity := 0
    expiresAt := 0, analytics := none }

theorem active_only_listing_witness :
    (connectingTunnelW ∈ GetTunnelsByUserID [] ("u") ↔
      (connectingTunnelW ∈ ([] : MemoryStore).map Prod.snd ∧
        connectingTunnelW.userID = "u" ∧
        connectingTunnelW.status = TunnelStatus.active)) ∧
    (GetTunnelsByUserID (ainsert ("w1") connectingTunnelW []) ("u") =
        GetTunnelsByUserID [] ("u") ∧
      (serviceCreateTunnel capZeroConfig
          (ainsert ("w1") connectingTunnelW []) ("u") 3000 ("i") ("s") 0).1 =
        (serviceCreateTunnel capZeroConfig [] ("u") 3000 ("i") ("s") 0).1) :=
  ⟨active_only_listing.1 [] ("u") connectingTunnelW,
   active_only_listing.2.2 capZeroConfig [] ("u") 3000 ("i") ("s") ("w1") 0
     connectingTunnelW (by decide) (by decide) (by decide)⟩

end Syntra
